import Mathlib

/-!
Verification of the tool/workflow registry in
`src/analyzer_tools/registry.py`.

The registry is a pure, in-memory catalog: a `TOOLS` mapping from tool
keys to `ToolInfo` records, a `WORKFLOWS` mapping from workflow keys to
workflow records, and four read-only query functions.  Python dicts
preserve insertion order, so both catalogs are embedded as association
lists in the source's definition order; dict lookup `TOOLS.get(k)` is
embedded as `List.lookup` (keys are unique, so first-match lookup agrees
with dict lookup).
-/

/-- `ToolInfo` from `registry.py`: information about an analysis tool. -/
structure ToolInfo where
  name : String
  module : String
  description : String
  usage : String
  examples : List String
  data_type : String
deriving DecidableEq, Repr

/-- Workflow record: the value shape of the `WORKFLOWS` dict literal. -/
structure WorkflowInfo where
  name : String
  description : String
  steps : List String
  tools : List String
deriving DecidableEq, Repr

/-- The `partial_data_assessor` entry of `TOOLS`. -/
def toolAssessor : ToolInfo :=
  { name := "Partial Data Assessor"
    module := "analyzer_tools.partial_data_assessor"
    description := "Assess quality of partial reflectometry data by analyzing overlap regions between data parts. Calculates chi-squared metrics and generates visualization reports."
    usage := "python analyzer_tools/partial_data_assessor.py <set_id>"
    examples := ["python analyzer_tools/partial_data_assessor.py 218281",
                 "python analyzer_tools/partial_data_assessor.py 218328"]
    data_type := "partial" }

/-- The `run_fit` entry of `TOOLS`. -/
def toolRunFit : ToolInfo :=
  { name := "Reflectivity Fit Runner"
    module := "analyzer_tools.run_fit"
    description := "Run reflectivity fits on combined data using specified models. Performs least-squares fitting and generates fit reports with uncertainty analysis."
    usage := "python analyzer_tools/run_fit.py <data_id> <model_name>"
    examples := ["python analyzer_tools/run_fit.py 218281 cu_thf",
                 "python analyzer_tools/run_fit.py 218328 cu_thf_temp"]
    data_type := "combined" }

/-- The `result_assessor` entry of `TOOLS`. -/
def toolResultAssessor : ToolInfo :=
  { name := "Fit Result Assessor"
    module := "analyzer_tools.result_assessor"
    description := "Assess quality of fitting results by analyzing chi-squared values, parameter uncertainties, and generating comparison plots."
    usage := "python analyzer_tools/result_assessor.py <data_id> <model_name>"
    examples := ["python analyzer_tools/result_assessor.py 218281 cu_thf",
                 "python analyzer_tools/result_assessor.py 218328 cu_thf_temp"]
    data_type := "combined" }

/-- The `create_model_script` entry of `TOOLS`. -/
def toolCreateModelScript : ToolInfo :=
  { name := "Model Script Creator"
    module := "analyzer_tools.create_model_script"
    description := "Generate fitting scripts by combining model definitions with fitting commands. Useful for batch processing and reproducible analysis."
    usage := "python analyzer_tools/create_model_script.py <model_name> <data_file> [--model_dir DIR] [--output_dir DIR]"
    examples := ["python analyzer_tools/create_model_script.py cu_thf data.txt",
                 "python analyzer_tools/create_model_script.py cu_thf data.txt --output_dir custom_output"]
    data_type := "combined" }

/-- The `create_temporary_model` entry of `TOOLS`. -/
def toolCreateTemporaryModel : ToolInfo :=
  { name := "Temporary Model Creator"
    module := "analyzer_tools.create_temporary_model"
    description := "Create temporary models with adjusted parameter ranges for sensitivity analysis and parameter exploration."
    usage := "python analyzer_tools/create_temporary_model.py <base_model> <new_model> --adjust <param> <min>,<max>"
    examples := ["python analyzer_tools/create_temporary_model.py cu_thf cu_thf_temp --adjust Cu thickness 500,800",
                 "python analyzer_tools/create_temporary_model.py cu_thf cu_thf_wide --adjust Cu thickness 300,1000"]
    data_type := "both" }

/-- The `TOOLS` dict of `registry.py`, in its insertion order. -/
def TOOLS : List (String × ToolInfo) :=
  [("partial_data_assessor", toolAssessor),
   ("run_fit", toolRunFit),
   ("result_assessor", toolResultAssessor),
   ("create_model_script", toolCreateModelScript),
   ("create_temporary_model", toolCreateTemporaryModel)]

/-- The `partial_data_quality` entry of `WORKFLOWS`. -/
def wfQuality : WorkflowInfo :=
  { name := "Partial Data Quality Assessment"
    description := "Assess the quality of partial reflectometry data before combining"
    steps := ["1. Use partial_data_assessor to check overlap quality",
              "2. Review chi-squared metrics (< 2.0 is typically good)",
              "3. Examine overlap plots for systematic deviations",
              "4. Identify problematic datasets for further investigation"]
    tools := ["partial_data_assessor"] }

/-- The `standard_fitting` entry of `WORKFLOWS`. -/
def wfStandard : WorkflowInfo :=
  { name := "Standard Reflectivity Fitting"
    description := "Complete workflow for fitting reflectivity data"
    steps := ["1. Use run_fit to perform initial fitting",
              "2. Use result_assessor to evaluate fit quality",
              "3. If poor fit, use create_temporary_model to adjust parameters",
              "4. Re-run fitting with adjusted model",
              "5. Generate final reports"]
    tools := ["run_fit", "result_assessor", "create_temporary_model"] }

/-- The `parameter_exploration` entry of `WORKFLOWS`. -/
def wfExploration : WorkflowInfo :=
  { name := "Parameter Sensitivity Analysis"
    description := "Explore parameter sensitivity and uncertainty"
    steps := ["1. Start with standard fitting workflow",
              "2. Use create_temporary_model to create variants with different parameter ranges",
              "3. Run fits on multiple parameter sets",
              "4. Use result_assessor to compare results",
              "5. Identify sensitive parameters and optimal ranges"]
    tools := ["run_fit", "result_assessor", "create_temporary_model"] }

/-- The `WORKFLOWS` dict of `registry.py`, in its insertion order. -/
def WORKFLOWS : List (String × WorkflowInfo) :=
  [("partial_data_quality", wfQuality),
   ("standard_fitting", wfStandard),
   ("parameter_exploration", wfExploration)]

/-- `get_all_tools()`: returns the `TOOLS` catalog. -/
def get_all_tools : List (String × ToolInfo) := TOOLS

/-- `get_tool(tool_name)`: `TOOLS.get(tool_name)`, i.e. exact-key lookup
returning `None` (here `none`) when the key is absent. -/
def get_tool (tool_name : String) : Option ToolInfo :=
  TOOLS.lookup tool_name

/-- `get_tools_by_data_type(data_type)`: the dict comprehension keeping
entries whose `data_type` equals the argument or equals `"both"`. -/
def get_tools_by_data_type (data_type : String) : List (String × ToolInfo) :=
  TOOLS.filter (fun p => p.2.data_type == data_type || p.2.data_type == "both")

/-- `get_workflows()`: returns the `WORKFLOWS` catalog. -/
def get_workflows : List (String × WorkflowInfo) := WORKFLOWS

/-!
State-passing model of the module.  The queries read the module-level
globals `TOOLS` and `WORKFLOWS` and never assign to them; making that
state explicit lets the no-mutation and determinism properties be stated
as facts about the state threaded through successive calls.
-/

/-- The module state: the two catalogs held by `registry.py`. -/
structure RegistryState where
  tools : List (String × ToolInfo)
  workflows : List (String × WorkflowInfo)
deriving DecidableEq

/-- The state at process start: the hard-coded catalogs. -/
def initState : RegistryState := ⟨TOOLS, WORKFLOWS⟩

/-- `get_all_tools()` as a state transformer: reads the state, writes nothing. -/
def get_all_toolsS (st : RegistryState) :
    List (String × ToolInfo) × RegistryState :=
  (st.tools, st)

/-- `get_tool(tool_name)` as a state transformer. -/
def get_toolS (tool_name : String) (st : RegistryState) :
    Option ToolInfo × RegistryState :=
  (st.tools.lookup tool_name, st)

/-- `get_tools_by_data_type(data_type)` as a state transformer. -/
def get_tools_by_data_typeS (data_type : String) (st : RegistryState) :
    List (String × ToolInfo) × RegistryState :=
  (st.tools.filter
    (fun p => p.2.data_type == data_type || p.2.data_type == "both"), st)

/-- `get_workflows()` as a state transformer. -/
def get_workflowsS (st : RegistryState) :
    List (String × WorkflowInfo) × RegistryState :=
  (st.workflows, st)

/-- Modelled from the spec: `registry.py` has no `validate()` operation
(the spec lists it as a recommended addition beyond the minimal
original).  Following the spec's words, it "scans every
`WorkflowEntry.toolRefs` and reports each reference that does not
resolve in the tool catalog".  An issue is the pair (workflow key,
dangling tool reference).  Parametrised over the two catalogs so the
spec's corrupted-catalog scenario can be expressed. -/
def validateWith (tools : List (String × ToolInfo))
    (workflows : List (String × WorkflowInfo)) : List (String × String) :=
  workflows.flatMap
    (fun wf => (wf.2.tools.filter
      (fun t => (tools.lookup t).isNone)).map (fun t => (wf.1, t)))

/-- Modelled from the spec: `validate()` on the registry's own catalogs. -/
def validate : List (String × String) := validateWith TOOLS WORKFLOWS

/-- Helper: a lookup over an association list in which no key matches
returns `none`. -/
theorem lookup_eq_none_of_forall_ne {α : Type} [BEq α] [LawfulBEq α]
    {β : Type} (l : List (α × β)) (k : α)
    (h : ∀ p ∈ l, p.1 ≠ k) : l.lookup k = none := by
  induction l with
  | nil => rfl
  | cons p l ih =>
    have hp : p.1 ≠ k := h p (List.mem_cons_self p l)
    have hb : (k == p.1) = false := by
      simp [beq_iff_eq]
      exact fun hk => hp hk.symm
    simp [List.lookup, hb]
    intro a b hm hk
    exact h (a, b) (List.mem_cons_of_mem p hm) hk.symm


/-- C1: for every catalog entry and every specific category
`c ∈ {"partial", "combined"}`, the entry appears in
`get_tools_by_data_type c` iff its `data_type` equals `c` or equals
`"both"` (proved for every `c`); in particular the `"both"`-tagged
`create_temporary_model` entry appears in the results for both
`"partial"` and `"combined"`, and the `"combined"`-only `run_fit` entry
never appears in the result for `"partial"`. -/
theorem tools_by_category_iff :
    (∀ (c k : String) (t : ToolInfo),
        (k, t) ∈ get_tools_by_data_type c ↔
          ((k, t) ∈ TOOLS ∧ (t.data_type = c ∨ t.data_type = "both")))
    ∧ ("create_temporary_model", toolCreateTemporaryModel) ∈
        get_tools_by_data_type "partial"
    ∧ ("create_temporary_model", toolCreateTemporaryModel) ∈
        get_tools_by_data_type "combined"
    ∧ ("run_fit", toolRunFit) ∉ get_tools_by_data_type "partial" := by
  refine ⟨?_, by decide, by decide, by decide⟩
  intro c k t
  simp [get_tools_by_data_type, List.mem_filter]

/-- C2: `get_tool` on a key matching no catalog entry returns `none`
(the explicit absent signal), never a real entry: absence is
distinguishable from every entry of the catalog. -/
theorem get_tool_absent :
    ∀ k : String, (∀ p ∈ TOOLS, p.1 ≠ k) →
      get_tool k = none ∧ ∀ p ∈ TOOLS, get_tool k ≠ some p.2 := by
  intro k h
  have hn : get_tool k = none := lookup_eq_none_of_forall_ne TOOLS k h
  refine ⟨hn, fun p _ hc => ?_⟩
  rw [hn] at hc
  exact Option.noConfusion hc

/-- Witness for C2 at the spec's own example key `"nonexistent_key"`. -/
theorem get_tool_absent_witness :
    (∀ p ∈ TOOLS, p.1 ≠ "nonexistent_key") ∧
      (get_tool "nonexistent_key" = none ∧
        ∀ p ∈ TOOLS, get_tool "nonexistent_key" ≠ some p.2) :=
  ⟨by decide, get_tool_absent "nonexistent_key" (by decide)⟩

/-- C3: referential integrity of the static catalogs: every tool
reference of every workflow in `WORKFLOWS` resolves via `get_tool`. -/
theorem workflow_refs_resolve :
    ∀ w ∈ WORKFLOWS, ∀ t ∈ w.2.tools, (get_tool t).isSome := by
  decide

/-- Witness for C3 at the `standard_fitting` workflow and its
`run_fit` reference. -/
theorem workflow_refs_resolve_witness :
    ("standard_fitting", wfStandard) ∈ WORKFLOWS ∧
      "run_fit" ∈ wfStandard.tools ∧ (get_tool "run_fit").isSome :=
  ⟨by decide, by decide,
    workflow_refs_resolve ("standard_fitting", wfStandard) (by decide)
      "run_fit" (by decide)⟩

/-- C4 (validate modelled from the spec): an issue is reported by
`validateWith` iff it names a workflow of the catalog and one of that
workflow's tool references that does not resolve in the tool catalog;
on the registry's own catalogs `validate` returns the empty sequence;
and on a deliberately corrupted catalog whose workflow references the
dangling key `"Z"`, it reports exactly that reference and no others. -/
theorem validate_reports_dangling_refs :
    (∀ (T : List (String × ToolInfo)) (W : List (String × WorkflowInfo))
        (i : String × String),
      i ∈ validateWith T W ↔
        ∃ wf ∈ W, i.1 = wf.1 ∧ i.2 ∈ wf.2.tools ∧ T.lookup i.2 = none)
    ∧ validate = []
    ∧ validateWith TOOLS
        [("W1", { name := "W1", description := "", steps := [],
                  tools := ["run_fit", "Z"] })] = [("W1", "Z")] := by
  refine ⟨?_, by decide, by decide⟩
  intro T W i
  obtain ⟨a, b⟩ := i
  simp only [validateWith, List.mem_flatMap, List.mem_map, List.mem_filter,
    Option.isNone_iff_eq_none]
  constructor
  · rintro ⟨wf, hwf, t, ⟨ht, hnone⟩, heq⟩
    obtain ⟨h1, h2⟩ := Prod.mk.injEq .. ▸ heq
    exact ⟨wf, hwf, h1.symm, h2 ▸ ht, h2 ▸ hnone⟩
  · rintro ⟨wf, hwf, h1, h2, h3⟩
    exact ⟨wf, hwf, b, ⟨h2, h3⟩, by rw [h1]⟩

/-- C5: `get_all_tools` returns exactly the statically defined catalog:
the five hard-coded tools, in the insertion order of the static
definition, no more and no fewer. -/
theorem get_all_tools_exact :
    get_all_tools = TOOLS ∧
      get_all_tools.map Prod.fst =
        ["partial_data_assessor", "run_fit", "result_assessor",
         "create_model_script", "create_temporary_model"] ∧
      get_all_tools.length = 5 :=
  ⟨rfl, rfl, rfl⟩

/-- C6: the tool catalog is well-formed: its keys are pairwise distinct
and every entry's `data_type` is one of the three enumerated values
`"partial"`, `"combined"`, `"both"`. -/
theorem tools_wellformed :
    (TOOLS.map Prod.fst).Nodup ∧
      ∀ p ∈ TOOLS,
        p.2.data_type ∈ (["partial", "combined", "both"] : List String) := by
  decide

/-- Witness for C6's second conjunct at the `run_fit` entry. -/
theorem tools_wellformed_witness :
    ("run_fit", toolRunFit) ∈ TOOLS ∧
      toolRunFit.data_type ∈ (["partial", "combined", "both"] : List String) :=
  ⟨by decide, tools_wellformed.2 ("run_fit", toolRunFit) (by decide)⟩

/-- C7: two successive calls of `get_all_tools` (the second running in
the state left by the first) return the same sequence of entries, whose
key order is the insertion order of the static definition. -/
theorem get_all_tools_order_deterministic :
    (get_all_toolsS initState).1 =
        (get_all_toolsS (get_all_toolsS initState).2).1 ∧
      (get_all_toolsS initState).1.map Prod.fst =
        ["partial_data_assessor", "run_fit", "result_assessor",
         "create_model_script", "create_temporary_model"] :=
  ⟨rfl, rfl⟩

/-- C8: every query is idempotent: in any registry state, calling it
twice with the same argument yields equal results, and each call leaves
the state (both catalogs) unchanged. -/
theorem queries_idempotent :
    ∀ (st : RegistryState) (k c : String),
      ((get_all_toolsS st).1 = (get_all_toolsS (get_all_toolsS st).2).1 ∧
        (get_all_toolsS st).2 = st) ∧
      ((get_toolS k st).1 = (get_toolS k (get_toolS k st).2).1 ∧
        (get_toolS k st).2 = st) ∧
      ((get_tools_by_data_typeS c st).1 =
          (get_tools_by_data_typeS c (get_tools_by_data_typeS c st).2).1 ∧
        (get_tools_by_data_typeS c st).2 = st) ∧
      ((get_workflowsS st).1 = (get_workflowsS (get_workflowsS st).2).1 ∧
        (get_workflowsS st).2 = st) :=
  fun _ _ _ => ⟨⟨rfl, rfl⟩, ⟨rfl, rfl⟩, ⟨rfl, rfl⟩, ⟨rfl, rfl⟩⟩

/-- C9: the category argument is never validated: any argument other
than `"partial"` and `"combined"` — including `"both"` itself and any
unrecognized string — returns exactly the `"both"`-tagged
`create_temporary_model` entry, without raising and without being
empty. -/
theorem unknown_category_yields_both_only :
    ∀ c : String, c ≠ "partial" → c ≠ "combined" →
      get_tools_by_data_type c =
        [("create_temporary_model", toolCreateTemporaryModel)] := by
  intro c h1 h2
  have e1 : (("partial" : String) == c) = false :=
    beq_eq_false_iff_ne.mpr (fun h => h1 h.symm)
  have e2 : (("combined" : String) == c) = false :=
    beq_eq_false_iff_ne.mpr (fun h => h2 h.symm)
  simp [get_tools_by_data_type, TOOLS, toolAssessor, toolRunFit,
    toolResultAssessor, toolCreateModelScript, toolCreateTemporaryModel,
    List.filter, e1, e2]

/-- Witness for C9 at the argument `"both"`. -/
theorem unknown_category_yields_both_only_witness :
    ("both" : String) ≠ "partial" ∧ ("both" : String) ≠ "combined" ∧
      get_tools_by_data_type "both" =
        [("create_temporary_model", toolCreateTemporaryModel)] :=
  ⟨by decide, by decide,
    unknown_category_yields_both_only "both" (by decide) (by decide)⟩

/-- C10: for every category argument, the filtered result is a sublist
of the full catalog: matching entries keep the relative order of the
static definition. -/
theorem filter_preserves_catalog_order :
    ∀ c : String, List.Sublist (get_tools_by_data_type c) get_all_tools :=
  fun _ => List.filter_sublist _
